import Mathlib

/-!
Shallow embedding of the book-catalog web crawler:
`crawler/parser.py`, `crawler/spider.py`, `crawler/main.py` and
`scheduler/tasks.py`.

Python values that can appear as fields of a record dict are modelled by
`PyVal`.  Python floats are modelled by exact rationals: every price in this
program comes from parsing a short decimal string, and none of the verified
claims depends on binary rounding, only on equality and textual rendering.
Python datetimes are modelled as an opaque tick (`PyVal.dt`).
-/

inductive PyVal where
  | none
  | str (s : String)
  | int (n : Int)
  | float (q : ℚ)
  | dt (t : Nat)
deriving DecidableEq, Repr

/-- A Python dict, as an insertion-ordered association list.  `pyGet` models
`dict.get(key)`: the value under the key, `None` when the key is absent. -/
def PyDict : Type := List (String × PyVal)

def pyGet (d : PyDict) (k : String) : PyVal :=
  match List.lookup k d with
  | some v => v
  | Option.none => PyVal.none

/-- Python `str()` of a value (`str(None) = "None"`). -/
def hexDigit (n : Nat) : Char :=
  if n < 10 then Char.ofNat (48 + n) else Char.ofNat (87 + n)

def natDec (n : Nat) : String := toString n

/-- Decimal rendering of a rational, following Python float `repr` on the
decimals this program produces: smallest number of fractional digits, and a
trailing `.0` for integral values.  Rationals whose reduced denominator is not
of the form 2^a*5^b (which cannot arise from parsing a decimal literal) fall
back to a fraction rendering. -/
def qRepr (q : ℚ) : String :=
  let sign := if q.num < 0 then "-" else ""
  let n := q.num.natAbs
  match (List.range 31).find? (fun k => q.den ∣ 10 ^ k) with
  | some k =>
    if k = 0 then sign ++ natDec n ++ ".0"
    else
      let m := n * (10 ^ k / q.den)
      let ip := m / 10 ^ k
      let fr := m % 10 ^ k
      let frs := natDec fr
      let pad := String.mk (List.replicate (k - frs.length) '0')
      sign ++ natDec ip ++ "." ++ pad ++ frs
  | Option.none => sign ++ natDec n ++ "/" ++ natDec q.den

def pyStr : PyVal → String
  | PyVal.none => "None"
  | PyVal.str s => s
  | PyVal.int n => toString n
  | PyVal.float q => qRepr q
  | PyVal.dt t => "datetime:" ++ toString t

/-! JSON serialization, modelling `json.dumps(..., sort_keys=True)` with the
default separators and `ensure_ascii=True`. -/

def hex4 (n : Nat) : List Char :=
  (List.range 4).map (fun i => hexDigit ((n >>> (4 * (3 - i))) % 16))

def jsonEscapeChar (c : Char) : List Char :=
  let n := c.toNat
  if c = '"' then ['\\', '"']
  else if c = '\\' then ['\\', '\\']
  else if c = '\n' then ['\\', 'n']
  else if c = '\r' then ['\\', 'r']
  else if c = '\t' then ['\\', 't']
  else if n = 8 then ['\\', 'b']
  else if n = 12 then ['\\', 'f']
  else if n < 32 || n ≥ 128 then
    if n < 65536 then '\\' :: 'u' :: hex4 n
    else
      let m := n - 65536
      ('\\' :: 'u' :: hex4 (55296 + (m >>> 10))) ++
        ('\\' :: 'u' :: hex4 (56320 + (m &&& 1023)))
  else [c]

def jsonStr (s : String) : String :=
  "\"" ++ String.mk (s.data.flatMap jsonEscapeChar) ++ "\""

/-- `json.dumps` of one value.  A datetime is not JSON-serializable in Python;
the `dt` case is given a fixed rendering here because no fingerprinted key
ever holds one. -/
def jsonRepr : PyVal → String
  | PyVal.none => "null"
  | PyVal.str s => jsonStr s
  | PyVal.int n => toString n
  | PyVal.float q => qRepr q
  | PyVal.dt t => "datetime:" ++ toString t

/-- The canonical serialization built by `_get_fingerprint`
(`parser.py:75-84`): `json.dumps` of the three-key subset dict with
`sort_keys=True`; alphabetical key order is
availability < price_excl_tax < price_incl_tax. -/
def canonicalJson (d : PyDict) : String :=
  "\x7b\"availability\": " ++ jsonRepr (pyGet d "availability") ++
    ", \"price_excl_tax\": " ++ jsonRepr (pyGet d "price_excl_tax") ++
    ", \"price_incl_tax\": " ++ jsonRepr (pyGet d "price_incl_tax") ++ "\x7d"

/-! SHA-256 (FIPS 180-4), over byte lists, words as naturals mod 2^32. -/

def w32 (x : Nat) : Nat := x % 4294967296

def add32 (x y : Nat) : Nat := (x + y) % 4294967296

def rotr32 (x n : Nat) : Nat := w32 ((x >>> n) ||| (x <<< (32 - n)))

def bnot32 (x : Nat) : Nat := x ^^^ 4294967295

def bigSigma0 (x : Nat) : Nat := rotr32 x 2 ^^^ rotr32 x 13 ^^^ rotr32 x 22

def bigSigma1 (x : Nat) : Nat := rotr32 x 6 ^^^ rotr32 x 11 ^^^ rotr32 x 25

def smallSigma0 (x : Nat) : Nat := rotr32 x 7 ^^^ rotr32 x 18 ^^^ (x >>> 3)

def smallSigma1 (x : Nat) : Nat := rotr32 x 17 ^^^ rotr32 x 19 ^^^ (x >>> 10)

def chWord (x y z : Nat) : Nat := (x &&& y) ^^^ (bnot32 x &&& z)

def majWord (x y z : Nat) : Nat := (x &&& y) ^^^ (x &&& z) ^^^ (y &&& z)

def sha256K : List Nat :=
  [1116352408, 1899447441, 3049323471, 3921009573,
   961987163, 1508970993, 2453635748, 2870763221,
   3624381080, 310598401, 607225278, 1426881987,
   1925078388, 2162078206, 2614888103, 3248222580,
   3835390401, 4022224774, 264347078, 604807628,
   770255983, 1249150122, 1555081692, 1996064986,
   2554220882, 2821834349, 2952996808, 3210313671,
   3336571891, 3584528711, 113926993, 338241895,
   666307205, 773529912, 1294757372, 1396182291,
   1695183700, 1986661051, 2177026350, 2456956037,
   2730485921, 2820302411, 3259730800, 3345764771,
   3516065817, 3600352804, 4094571909, 275423344,
   430227734, 506948616, 659060556, 883997877,
   958139571, 1322822218, 1537002063, 1747873779,
   1955562222, 2024104815, 2227730452, 2361852424,
   2428436474, 2756734187, 3204031479, 3329325298]

def sha256H0 : List Nat :=
  [1779033703, 3144134277, 1013904242, 2773480762,
   1359893119, 2600822924, 528734635, 1541459225]

def padMessage (msg : List Nat) : List Nat :=
  let L := msg.length
  let z := (120 - (L + 1) % 64) % 64
  let lenBits := 8 * L
  msg ++ [0x80] ++ List.replicate z 0 ++
    (List.range 8).map (fun i => (lenBits >>> (8 * (7 - i))) % 256)

def bytesToWords (block : List Nat) : List Nat :=
  (List.range 16).map (fun i =>
    (block.getD (4 * i) 0) <<< 24 ||| (block.getD (4 * i + 1) 0) <<< 16 |||
      (block.getD (4 * i + 2) 0) <<< 8 ||| block.getD (4 * i + 3) 0)

def extendWords (w : Array Nat) : Array Nat :=
  (List.range 48).foldl (fun a i =>
    a.push (add32
      (add32 (smallSigma1 (a.getD (14 + i) 0)) (a.getD (9 + i) 0))
      (add32 (smallSigma0 (a.getD (1 + i) 0)) (a.getD i 0)))) w

def compressBlock (h : List Nat) (block : List Nat) : List Nat :=
  let w := extendWords (Array.mk (bytesToWords block))
  let step := fun (st : Nat × Nat × Nat × Nat × Nat × Nat × Nat × Nat) (t : Nat) =>
    let (a, b, c, d, e, f, g, hh) := st
    let t1 := add32 hh (add32 (bigSigma1 e)
      (add32 (chWord e f g) (add32 (sha256K.getD t 0) (w.getD t 0))))
    let t2 := add32 (bigSigma0 a) (majWord a b c)
    (add32 t1 t2, a, b, c, add32 d t1, e, f, g)
  let init := (h.getD 0 0, h.getD 1 0, h.getD 2 0, h.getD 3 0,
               h.getD 4 0, h.getD 5 0, h.getD 6 0, h.getD 7 0)
  let fin := (List.range 64).foldl step init
  match fin with
  | (a, b, c, d, e, f, g, hh) =>
    [add32 (h.getD 0 0) a, add32 (h.getD 1 0) b, add32 (h.getD 2 0) c,
     add32 (h.getD 3 0) d, add32 (h.getD 4 0) e, add32 (h.getD 5 0) f,
     add32 (h.getD 6 0) g, add32 (h.getD 7 0) hh]

def sha256Words (msg : List Nat) : List Nat :=
  let padded := padMessage msg
  (List.range (padded.length / 64)).foldl
    (fun h i => compressBlock h ((padded.drop (64 * i)).take 64)) sha256H0

def wordToHex (x : Nat) : List Char :=
  (List.range 8).map (fun i => hexDigit ((x >>> (4 * (7 - i))) % 16))

def sha256Hex (msg : List Nat) : String :=
  String.mk ((sha256Words msg).flatMap wordToHex)

def utf8Char (c : Char) : List Nat :=
  let n := c.toNat
  if n < 128 then [n]
  else if n < 2048 then [192 ||| (n >>> 6), 128 ||| (n &&& 63)]
  else if n < 65536 then
    [224 ||| (n >>> 12), 128 ||| ((n >>> 6) &&& 63), 128 ||| (n &&& 63)]
  else
    [240 ||| (n >>> 18), 128 ||| ((n >>> 12) &&& 63),
     128 ||| ((n >>> 6) &&& 63), 128 ||| (n &&& 63)]

def utf8Bytes (s : String) : List Nat := s.data.flatMap utf8Char

/-- `_get_fingerprint` (`parser.py:75-84`): SHA-256 hex digest of the UTF-8
bytes of the canonical three-field JSON serialization. -/
def getFingerprint (d : PyDict) : String :=
  sha256Hex (utf8Bytes (canonicalJson d))

/-! Price cleaning, `_clean_price` (`parser.py:86-90`).

Python strings are `List Char` here so that `str.replace` and `float()` can
be modelled structurally.  The source strips the two-character sequence
U+00C2 U+00A3 (the mojibake rendering of the pound sign found in the fetched
pages); `str.replace` removes every non-overlapping occurrence, left to
right. -/

inductive PyErr where
  | attributeError
  | valueError
deriving DecidableEq, Repr

/-- `s.replace(p :: ps, "")`: remove every occurrence of the pattern. -/
def replaceAll (p : Char) (ps : List Char) : List Char → List Char
  | [] => []
  | c :: rest =>
    if (p :: ps).isPrefixOf (c :: rest) then replaceAll p ps (rest.drop ps.length)
    else c :: replaceAll p ps rest
termination_by l => l.length
decreasing_by
  · simp only [List.length_drop, List.length_cons]
    omega
  · simp only [List.length_cons]
    omega

def isPyWs (c : Char) : Bool :=
  c == ' ' || c == '\t' || c == '\n' || c == '\r' || c == '\x0b' || c == '\x0c'

def trimWs (l : List Char) : List Char :=
  ((l.dropWhile isPyWs).reverse.dropWhile isPyWs).reverse

def splitSign (l : List Char) : Int × List Char :=
  match l with
  | '-' :: r => (-1, r)
  | '+' :: r => (1, r)
  | r => (1, r)

def digitsVal (l : List Char) : Nat :=
  l.foldl (fun a c => 10 * a + (c.toNat - 48)) 0

def takeDigits (l : List Char) : List Char × List Char :=
  (l.takeWhile Char.isDigit, l.dropWhile Char.isDigit)

def parseExpPart (l : List Char) : Option Int :=
  match l with
  | [] => some 0
  | c :: r =>
    if c == 'e' || c == 'E' then
      let (sg, r2) := splitSign r
      let (ds, r3) := takeDigits r2
      if ds ≠ [] ∧ r3 = [] then some (sg * (digitsVal ds : Int)) else none
    else none

/-- Model of Python `float(s)` on a finite decimal literal: optional
surrounding whitespace, optional sign, digits with an optional fractional
part, optional exponent.  (`inf`/`nan` literals and digit-group underscores
are outside the model; no theorem below depends on them.) -/
def pyFloatCore (l : List Char) : Option ℚ :=
  let (sgn, r1) := splitSign l
  let (ip, r2) := takeDigits r1
  match r2 with
  | '.' :: r3 =>
    let (fp, r4) := takeDigits r3
    if ip = [] ∧ fp = [] then Option.none
    else (parseExpPart r4).map (fun e =>
      (sgn : ℚ) * ((digitsVal ip : ℚ) + (digitsVal fp : ℚ) / 10 ^ fp.length) *
        (10 : ℚ) ^ e)
  | _ =>
    if ip = [] then Option.none
    else (parseExpPart r2).map (fun e =>
      (sgn : ℚ) * (digitsVal ip : ℚ) * (10 : ℚ) ^ e)

def pyFloat (l : List Char) : Except PyErr ℚ :=
  match pyFloatCore (trimWs l) with
  | some q => Except.ok q
  | Option.none => Except.error PyErr.valueError

/-- `_clean_price` translated from the source.  The argument is
`Optional[str]`: at both call sites it is `table_data.get(...)`, which is
`None` when the row is absent.  On `None` the attribute access
`None.replace` raises `AttributeError`, which the `except (ValueError,
TypeError)` clause does not catch, so the error escapes.  On a string the
mojibake glyph `'\xC2' '\xA3'` is removed everywhere and the rest is given
to `float`; `ValueError` is caught and mapped to `0.0`. -/
def cleanPrice (p : Option (List Char)) : Except PyErr ℚ :=
  match p with
  | Option.none => Except.error PyErr.attributeError
  | some s =>
    match pyFloat (replaceAll '\xC2' ['\xA3'] s) with
    | Except.ok q => Except.ok q
    | Except.error _ => Except.ok 0

/-- Modelled from the spec: "strip a leading currency glyph, parse as a
decimal; on any parse failure, value is 0.0 (never raises)" — the claim's
reading of `_clean_price`, used to compare against the source translation. -/
def cleanPriceSpecLeading (s : List Char) : ℚ :=
  let stripped :=
    if ['\xC2', '\xA3'].isPrefixOf s then s.drop 2 else s
  match pyFloat stripped with
  | Except.ok q => q
  | Except.error _ => 0

/-! The `Book` pydantic model (`parser.py:22-58`) and
`ChangeLogEntry` (`parser.py:60-71`), restricted to the fields the verified
claims touch.  `image_url`/`source_url` are kept as their URL strings
(`str(HttpUrl)`), the capture timestamp as an opaque tick, and persisted
`ChangeLogEntry` timestamps are not modelled (no claim mentions them). -/

structure Book where
  upc : String
  name : String
  description : Option String
  category : String
  price_incl_tax : ℚ
  price_excl_tax : ℚ
  availability : String
  num_reviews : Int
  rating : Int
  image_url : String
  source_url : String
  crawl_status : String
  crawl_timestamp : Nat
  data_fingerprint : String
  raw_html_snapshot : String
deriving DecidableEq, Repr

structure ChangeLogEntry where
  book_upc : String
  field_changed : String
  old_value : String
  new_value : String
deriving DecidableEq, Repr

/-- The nine fields compared by `log_changes` (`tasks.py:34-42`), in source
order. -/
def diffFields : List String :=
  ["name", "description", "category", "price_incl_tax", "price_excl_tax",
   "availability", "num_reviews", "rating", "image_url"]

/-- The new-record value passed to `check_field` for each compared field:
the corresponding `Book` attribute, as a Python value. -/
def newFieldVal (b : Book) (f : String) : PyVal :=
  if f = "name" then PyVal.str b.name
  else if f = "description" then
    match b.description with
    | some s => PyVal.str s
    | Option.none => PyVal.none
  else if f = "category" then PyVal.str b.category
  else if f = "price_incl_tax" then PyVal.float b.price_incl_tax
  else if f = "price_excl_tax" then PyVal.float b.price_excl_tax
  else if f = "availability" then PyVal.str b.availability
  else if f = "num_reviews" then PyVal.int b.num_reviews
  else if f = "rating" then PyVal.int b.rating
  else if f = "image_url" then PyVal.str b.image_url
  else PyVal.none

/-- `check_field` (`tasks.py:26-33`): emit an entry when the `str()` images
differ. -/
def checkField (upc f : String) (oldv newv : PyVal) : Option ChangeLogEntry :=
  if pyStr oldv ≠ pyStr newv then
    some ⟨upc, f, pyStr oldv, pyStr newv⟩
  else Option.none

/-- The entries accumulated by the nine sequential `check_field` calls of
`log_changes` (`tasks.py:20-43`). -/
def logChangesEvents (old : PyDict) (nb : Book) : List ChangeLogEntry :=
  diffFields.filterMap (fun f => checkField nb.upc f (pyGet old f) (newFieldVal nb f))

/-- Persistence operations issued against the store, in order. -/
inductive DbOp where
  | insertManyChangeLog (evs : List ChangeLogEntry)
  | insertOneChangeLog (ev : ChangeLogEntry)
  | updateOneBooks (filterUpc : String) (setFields : List (String × PyVal))
deriving DecidableEq, Repr

/-- The write trace of `log_changes` (`tasks.py:44-52`): one
`insert_many` with the whole batch when any entry exists, nothing
otherwise. -/
def logChangesOps (old : PyDict) (nb : Book) : List DbOp :=
  let evs := logChangesEvents old nb
  if evs.isEmpty then [] else [DbOp.insertManyChangeLog evs]

/-- The `$set` document of the `update_one` in `check_book_update`
(`tasks.py:72-89`), in source order. -/
def updateSetFields (nb : Book) : List (String × PyVal) :=
  [("name", PyVal.str nb.name),
   ("description", match nb.description with
     | some s => PyVal.str s
     | Option.none => PyVal.none),
   ("category", PyVal.str nb.category),
   ("price_incl_tax", PyVal.float nb.price_incl_tax),
   ("price_excl_tax", PyVal.float nb.price_excl_tax),
   ("availability", PyVal.str nb.availability),
   ("num_reviews", PyVal.int nb.num_reviews),
   ("rating", PyVal.int nb.rating),
   ("image_url", PyVal.str nb.image_url),
   ("data_fingerprint", PyVal.str nb.data_fingerprint),
   ("crawl_timestamp", PyVal.dt nb.crawl_timestamp),
   ("raw_html_snapshot", PyVal.str nb.raw_html_snapshot),
   ("crawl_status", PyVal.str nb.crawl_status)]

/-- MongoDB `$set` applied to a stored document: listed fields are
overwritten, every other field keeps its stored value. -/
def applySet (r : String → PyVal) (sets : List (String × PyVal)) : String → PyVal :=
  fun k =>
    match List.lookup k sets with
    | some v => v
    | Option.none => r k

/-! `check_book_update` (`tasks.py:54-96`).

The network fetch, the HTML extraction and the store are external effects;
they enter the model as explicit outcomes: `fetch` is the result of
`spider.fetch_page` (a page, or a raised error after the retry layers),
`parse` is `parse_book_page` on the fetched text, and `dbf` says which, if
any, persistence call raises.  The function returns the task's boolean
result together with the trace of persistence operations that actually
completed — the whole body runs inside `try/except Exception`, so every
raise is converted to the `(false, …)` result. -/

inductive FetchOutcome where
  | ok (page : String)
  | fail
deriving DecidableEq, Repr

inductive DbFailPoint where
  | noFail
  | failInsert
  | failUpdate
deriving DecidableEq, Repr

def checkBookUpdate (parse : String → Option Book) (fetch : FetchOutcome)
    (dbf : DbFailPoint) (old : PyDict) : Bool × List DbOp :=
  match fetch with
  | FetchOutcome.fail => (false, [])
  | FetchOutcome.ok page =>
    match parse page with
    | Option.none => (false, [])
    | some nb =>
      if pyGet old "data_fingerprint" ≠ PyVal.str nb.data_fingerprint then
        let evs := logChangesEvents old nb
        if dbf = DbFailPoint.failInsert ∧ ¬ evs.isEmpty then (false, [])
        else
          let ops1 := logChangesOps old nb
          if dbf = DbFailPoint.failUpdate then (false, ops1)
          else (true, ops1 ++ [DbOp.updateOneBooks nb.upc (updateSetFields nb)])
      else (false, [])

/-- The batch of `run_daily_change_detection` (`tasks.py:181-189`):
`asyncio.gather` over one `check_book_update` task per known book; every
task yields a boolean, none can abort a sibling. -/
def runUpdateChecks (parse : String → Option Book)
    (fetch : PyDict → FetchOutcome) (dbf : PyDict → DbFailPoint)
    (books : List PyDict) : List Bool :=
  books.map (fun b => (checkBookUpdate parse (fetch b) (dbf b) b).1)

/-! Stage 2 of `run_crawler` (`crawler/main.py:51-93`): the resume-set
subtraction `spider.book_urls_to_crawl - existing_urls`; one
`process_book_page` task is created per member of the difference. -/

def urlsToCrawl (discovered existingUrls : Finset String) : Finset String :=
  discovered \ existingUrls

/-! `Spider.fetch_page` (`spider.py:41-57`): the tenacity application-layer
retry.  `stop_after_attempt(5)` allows at most `SPIDER_MAX_ATTEMPTS = 5`
attempts; only `httpx.HTTPStatusError` is retried (raised by
`raise_for_status` exactly when the status code is in
`RETRYABLE_STATUS_CODES`); `reraise=True` re-raises the last error once the
ceiling is reached.  A transport-level failure (after the transport's own
retries) is not of that type and propagates immediately.  The transport is a
deterministic sequence of per-attempt outcomes; the result is paired with
the number of attempts issued. -/

def RETRYABLE_STATUS_CODES : List Nat := [500, 502, 503, 504]

def SPIDER_MAX_ATTEMPTS : Nat := 5

structure HttpResponse where
  status : Nat
deriving DecidableEq, Repr

inductive TransportOutcome where
  | ok (r : HttpResponse)
  | netError
deriving DecidableEq, Repr

inductive FetchError where
  | httpStatusError (code : Nat)
  | transportError
deriving DecidableEq, Repr

/-- One execution of the `fetch_page` body. -/
def fetchAttempt (t : TransportOutcome) : Except FetchError HttpResponse :=
  match t with
  | TransportOutcome.netError => Except.error FetchError.transportError
  | TransportOutcome.ok r =>
    if r.status ∈ RETRYABLE_STATUS_CODES then
      Except.error (FetchError.httpStatusError r.status)
    else Except.ok r

def fetchPageFrom (transport : Nat → TransportOutcome) :
    Nat → Nat → Except FetchError HttpResponse × Nat
  | _, 0 => (Except.error FetchError.transportError, 0)
  | i, remaining + 1 =>
    match fetchAttempt (transport i) with
    | Except.ok r => (Except.ok r, 1)
    | Except.error e =>
      match e, remaining with
      | FetchError.httpStatusError _, f + 1 =>
        let res := fetchPageFrom transport (i + 1) (f + 1)
        (res.1, res.2 + 1)
      | _, _ => (Except.error e, 1)

def fetchPage (transport : Nat → TransportOutcome) :
    Except FetchError HttpResponse × Nat :=
  fetchPageFrom transport 0 SPIDER_MAX_ATTEMPTS

/-! The fetch admission limit (`spider.py:16-57`): every `fetch_page` body
runs inside `async with self.semaphore` where
`self.semaphore = asyncio.Semaphore(concurrency)` and the default
`concurrency` is `SPIDER_DEFAULT_CONCURRENCY = 20`.  The semaphore is an
interleaving transition system: a caller entering the `async with` block
consumes one permit (only possible while a permit is available — otherwise
the caller suspends) and moves its fetch in flight; leaving the block
returns the permit.  `inFlight` counts fetches between those two points. -/

def SPIDER_DEFAULT_CONCURRENCY : Nat := 20

structure SemState where
  available : Nat
  inFlight : Nat
deriving DecidableEq, Repr

def semInit (limit : Nat) : SemState := ⟨limit, 0⟩

inductive SemStep : SemState → SemState → Prop where
  | acquire (a f : Nat) : SemStep ⟨a + 1, f⟩ ⟨a, f + 1⟩
  | release (a f : Nat) : SemStep ⟨a, f + 1⟩ ⟨a + 1, f⟩

def SemReachable (limit : Nat) (s : SemState) : Prop :=
  Relation.ReflTransGen SemStep (semInit limit) s

/-! Theorems. -/

/-- C1.  Fingerprint determinism: two record dicts whose `price_incl_tax`,
`price_excl_tax` and `availability` entries are equal get the same
`_get_fingerprint` output, whatever the other keys hold and in whatever
order the keys were inserted. -/
theorem fingerprint_determinism (d1 d2 : PyDict)
    (h1 : pyGet d1 "price_incl_tax" = pyGet d2 "price_incl_tax")
    (h2 : pyGet d1 "price_excl_tax" = pyGet d2 "price_excl_tax")
    (h3 : pyGet d1 "availability" = pyGet d2 "availability") :
    getFingerprint d1 = getFingerprint d2 := by
  unfold getFingerprint canonicalJson
  rw [h1, h2, h3]

def fpDictA : PyDict :=
  [("name", PyVal.str "Book A"),
   ("price_incl_tax", PyVal.float 52),
   ("price_excl_tax", PyVal.float 48),
   ("availability", PyVal.str "In stock"),
   ("rating", PyVal.int 3)]

def fpDictB : PyDict :=
  [("availability", PyVal.str "In stock"),
   ("upc", PyVal.str "x1"),
   ("price_excl_tax", PyVal.float 48),
   ("price_incl_tax", PyVal.float 52)]

/-- C1, witness: two concrete dicts with different extra fields and
different insertion orders share the three fingerprinted values, hence the
fingerprint. -/
theorem fingerprint_determinism_witness :
    pyGet fpDictA "price_incl_tax" = pyGet fpDictB "price_incl_tax" ∧
    pyGet fpDictA "price_excl_tax" = pyGet fpDictB "price_excl_tax" ∧
    pyGet fpDictA "availability" = pyGet fpDictB "availability" ∧
    getFingerprint fpDictA = getFingerprint fpDictB :=
  ⟨by decide, by decide, by decide,
   fingerprint_determinism fpDictA fpDictB (by decide) (by decide) (by decide)⟩

/-- C4.  `_clean_price` on `None` raises: `None.replace` is an
`AttributeError`, which `except (ValueError, TypeError)` does not catch —
contradicting both the claim and the repository's own test
`test_clean_price_invalid` (`tests/test_crawler.py`), which asserts
`_clean_price(None) == 0.0`.  On every string input the function does
return a value: the parsed decimal of the glyph-stripped text, `0.0` when
parsing fails. -/
theorem clean_price_none_raises :
    cleanPrice Option.none = Except.error PyErr.attributeError ∧
    (∀ s : List Char, ∃ q : ℚ, cleanPrice (some s) = Except.ok q) ∧
    (∀ s : List Char,
      pyFloat (replaceAll '\xC2' ['\xA3'] s) = Except.error PyErr.valueError →
      cleanPrice (some s) = Except.ok 0) := by
  refine ⟨rfl, ?_, ?_⟩
  · intro s
    cases h : pyFloat (replaceAll '\xC2' ['\xA3'] s) with
    | ok q => exact ⟨q, by simp only [cleanPrice, h]⟩
    | error e => exact ⟨0, by simp only [cleanPrice, h]⟩
  · intro s h
    simp only [cleanPrice, h]

/-- C6.  Resume-set subtraction in `run_crawler`: the stage-2 task set is
exactly the discovered set minus the externally known source URLs, and on
the spec's concrete instance only C survives. -/
theorem resume_set_subtraction :
    (∀ (d e : Finset String) (u : String),
      u ∈ urlsToCrawl d e ↔ u ∈ d ∧ u ∉ e) ∧
    urlsToCrawl {"A", "B", "C"} {"A", "B"} = {"C"} := by
  refine ⟨fun d e u => Finset.mem_sdiff, ?_⟩
  decide

/-- C10.  Update frame of `check_book_update`: the `$set` document holds
exactly the thirteen listed fields; `upc` and `source_url` are not among
them, so applying the update leaves the stored record's `upc` and
`source_url` unchanged whatever the freshly parsed record holds. -/
theorem update_frame :
    ∀ nb : Book,
      ((updateSetFields nb).map Prod.fst =
        ["name", "description", "category", "price_incl_tax", "price_excl_tax",
         "availability", "num_reviews", "rating", "image_url",
         "data_fingerprint", "crawl_timestamp", "raw_html_snapshot",
         "crawl_status"]) ∧
      "upc" ∉ (updateSetFields nb).map Prod.fst ∧
      "source_url" ∉ (updateSetFields nb).map Prod.fst ∧
      (∀ stored : String → PyVal,
        applySet stored (updateSetFields nb) "upc" = stored "upc" ∧
        applySet stored (updateSetFields nb) "source_url" = stored "source_url") := by
  intro nb
  have hmap : (updateSetFields nb).map Prod.fst =
      ["name", "description", "category", "price_incl_tax", "price_excl_tax",
       "availability", "num_reviews", "rating", "image_url",
       "data_fingerprint", "crawl_timestamp", "raw_html_snapshot",
       "crawl_status"] := rfl
  refine ⟨hmap, ?_, ?_, ?_⟩
  · rw [hmap]; decide
  · rw [hmap]; decide
  · intro stored
    exact ⟨rfl, rfl⟩

/-- Modelled from the spec's words for the Change Detector: one event per
field of the fixed nine-field list whose string-normalized old and new
values differ, carrying the field's name and the stringified values. -/
def diffSpec (old : PyDict) (nb : Book) : List ChangeLogEntry :=
  (diffFields.filter (fun f => pyStr (pyGet old f) != pyStr (newFieldVal nb f))).map
    (fun f => ⟨nb.upc, f, pyStr (pyGet old f), pyStr (newFieldVal nb f)⟩)

lemma filterMap_checkField (upc : String) (ov nv : String → PyVal) :
    ∀ fs : List String,
      fs.filterMap (fun f => checkField upc f (ov f) (nv f)) =
        (fs.filter (fun f => pyStr (ov f) != pyStr (nv f))).map
          (fun f => ⟨upc, f, pyStr (ov f), pyStr (nv f)⟩) := by
  intro fs
  induction fs with
  | nil => rfl
  | cons a t ih =>
    by_cases h : pyStr (ov a) = pyStr (nv a)
    · have hc : checkField upc a (ov a) (nv a) = Option.none := by
        simp [checkField, h]
      have hb : (pyStr (ov a) != pyStr (nv a)) = false := by simp [h]
      simp [List.filterMap_cons, List.filter_cons, hc, hb, ih]
    · have hc : checkField upc a (ov a) (nv a) =
          some ⟨upc, a, pyStr (ov a), pyStr (nv a)⟩ := by
        simp [checkField, h]
      have hb : (pyStr (ov a) != pyStr (nv a)) = true := by simp [h]
      simp [List.filterMap_cons, List.filter_cons, hc, hb, ih]

lemma count_field_diffSpec (upc : String) (ov nv : String → PyVal) (f : String) :
    ∀ l : List String, l.Nodup →
      ((((l.filter (fun x => pyStr (ov x) != pyStr (nv x))).map
          (fun x => (⟨upc, x, pyStr (ov x), pyStr (nv x)⟩ : ChangeLogEntry))).filter
            (fun e => e.field_changed == f)).length =
        if f ∈ l ∧ pyStr (ov f) ≠ pyStr (nv f) then 1 else 0) := by
  intro l
  induction l with
  | nil => intro _; simp
  | cons a t ih =>
    intro hnd
    obtain ⟨ha, ht⟩ := List.nodup_cons.mp hnd
    by_cases hq : pyStr (ov a) = pyStr (nv a) <;> by_cases haf : f = a
    · subst haf
      simp [List.filter_cons, hq, ih ht]
    · have haf2 : ¬ a = f := fun h => haf h.symm
      simp [List.filter_cons, hq, ih ht, List.mem_cons, haf]
    · subst haf
      simp [List.filter_cons, hq, ih ht, ha]
    · have haf2 : ¬ a = f := fun h => haf h.symm
      simp [List.filter_cons, hq, ih ht, List.mem_cons, haf, haf2]

/-- C3.  Diff exactness of `log_changes`: the emitted batch equals the
spec-shaped diff (one event per differing field of the nine, in list order,
with the stringified old/new values); each field name occurs on exactly one
event when its normalized values differ and on none otherwise; the batch is
empty exactly when no field differs; and persistence is a single
`insert_many` of the whole batch, or nothing when the batch is empty. -/
theorem diff_exactness :
    ∀ (old : PyDict) (nb : Book),
      logChangesEvents old nb = diffSpec old nb ∧
      (∀ f : String,
        ((logChangesEvents old nb).filter (fun e => e.field_changed == f)).length =
          if f ∈ diffFields ∧ pyStr (pyGet old f) ≠ pyStr (newFieldVal nb f)
          then 1 else 0) ∧
      (logChangesEvents old nb = [] ↔
        diffFields.all (fun f => pyStr (pyGet old f) == pyStr (newFieldVal nb f)) = true) ∧
      logChangesOps old nb =
        (if (logChangesEvents old nb).isEmpty then []
         else [DbOp.insertManyChangeLog (logChangesEvents old nb)]) := by
  intro old nb
  have h1 : logChangesEvents old nb = diffSpec old nb :=
    filterMap_checkField nb.upc (fun f => pyGet old f) (fun f => newFieldVal nb f)
      diffFields
  have hnd : diffFields.Nodup := by decide
  refine ⟨h1, ?_, ?_, rfl⟩
  · intro f
    rw [h1]
    exact count_field_diffSpec nb.upc (fun f => pyGet old f)
      (fun f => newFieldVal nb f) f diffFields hnd
  · rw [h1]
    unfold diffSpec
    constructor
    · intro h
      rw [List.map_eq_nil_iff] at h
      rw [List.all_eq_true]
      intro f hf
      by_contra hne
      have : f ∈ diffFields.filter
          (fun x => pyStr (pyGet old x) != pyStr (newFieldVal nb x)) := by
        rw [List.mem_filter]
        exact ⟨hf, by simpa using hne⟩
      rw [h] at this
      exact absurd this (List.not_mem_nil f)
    · intro h
      rw [List.all_eq_true] at h
      have : diffFields.filter
          (fun x => pyStr (pyGet old x) != pyStr (newFieldVal nb x)) = [] := by
        rw [List.filter_eq_nil_iff]
        intro a ha
        have := h a ha
        simp at this
        simp [this]
      rw [this, List.map_nil]

/-- C5.  Fingerprint gate of `check_book_update` (with no persistence
failure injected): equal stored and computed fingerprints mean a `False`
result and an empty write trace; different fingerprints mean a `True`
result with the diff batch (when non-empty) followed by the record update;
and any write at all implies the fingerprints differed. -/
theorem fingerprint_gate (parse : String → Option Book) (page : String)
    (nb : Book) (old : PyDict) (hp : parse page = some nb) :
    (pyGet old "data_fingerprint" = PyVal.str nb.data_fingerprint →
      checkBookUpdate parse (FetchOutcome.ok page) DbFailPoint.noFail old =
        (false, [])) ∧
    (pyGet old "data_fingerprint" ≠ PyVal.str nb.data_fingerprint →
      checkBookUpdate parse (FetchOutcome.ok page) DbFailPoint.noFail old =
        (true, logChangesOps old nb ++
          [DbOp.updateOneBooks nb.upc (updateSetFields nb)])) ∧
    ((checkBookUpdate parse (FetchOutcome.ok page) DbFailPoint.noFail old).2 ≠ [] →
      pyGet old "data_fingerprint" ≠ PyVal.str nb.data_fingerprint) := by
  have hbody : checkBookUpdate parse (FetchOutcome.ok page) DbFailPoint.noFail old =
      if pyGet old "data_fingerprint" ≠ PyVal.str nb.data_fingerprint then
        (true, logChangesOps old nb ++
          [DbOp.updateOneBooks nb.upc (updateSetFields nb)])
      else (false, []) := by
    simp [checkBookUpdate, hp]
  refine ⟨?_, ?_, ?_⟩
  · intro h
    rw [hbody, if_neg (by simp [h])]
  · intro h
    rw [hbody, if_pos h]
  · intro h2
    by_contra heq
    rw [hbody, if_neg (by simp [heq])] at h2
    exact h2 rfl

def gateBook : Book :=
  { upc := "u1", name := "N", description := Option.none, category := "Cat",
    price_incl_tax := 10, price_excl_tax := 9, availability := "In stock",
    num_reviews := 0, rating := 3, image_url := "http://img",
    source_url := "http://src", crawl_status := "successful",
    crawl_timestamp := 0, data_fingerprint := "fp-new",
    raw_html_snapshot := "html" }

/-- C5, witness: a stored record whose fingerprint equals the freshly
computed one gets no write and a `False` result. -/
theorem fingerprint_gate_witness :
    checkBookUpdate (fun _ => some gateBook) (FetchOutcome.ok "page")
        DbFailPoint.noFail [("data_fingerprint", PyVal.str "fp-new")] =
      (false, []) :=
  (fingerprint_gate (fun _ => some gateBook) "page" gateBook
      [("data_fingerprint", PyVal.str "fp-new")] rfl).1 (by decide)

lemma fetchAttempt_retryable (r : HttpResponse)
    (h : r.status ∈ RETRYABLE_STATUS_CODES) :
    fetchAttempt (TransportOutcome.ok r) =
      Except.error (FetchError.httpStatusError r.status) := by
  simp [fetchAttempt, h]

lemma fetchAttempt_passthrough (r : HttpResponse)
    (h : r.status ∉ RETRYABLE_STATUS_CODES) :
    fetchAttempt (TransportOutcome.ok r) = Except.ok r := by
  simp [fetchAttempt, h]

lemma fetchPageFrom_all_retry (t : Nat → TransportOutcome)
    (hall : ∀ i, ∃ r, t i = TransportOutcome.ok r ∧
      r.status ∈ RETRYABLE_STATUS_CODES) :
    ∀ n i r, t (i + n) = TransportOutcome.ok r →
      fetchPageFrom t i (n + 1) =
        (Except.error (FetchError.httpStatusError r.status), n + 1) := by
  intro n
  induction n with
  | zero =>
    intro i r h
    obtain ⟨r0, h0, s0⟩ := hall i
    have hrr : TransportOutcome.ok r0 = TransportOutcome.ok r := h0.symm.trans h
    injection hrr with hrr
    subst hrr
    rw [fetchPageFrom, h0, fetchAttempt_retryable r0 s0]
  | succ m ih =>
    intro i r h
    obtain ⟨r0, h0, s0⟩ := hall i
    have hr : fetchPageFrom t (i + 1) (m + 1) =
        (Except.error (FetchError.httpStatusError r.status), m + 1) := by
      refine ih (i + 1) r ?_
      have : i + 1 + m = i + (m + 1) := by omega
      rw [this]
      exact h
    rw [fetchPageFrom, h0, fetchAttempt_retryable r0 s0]
    show ((fetchPageFrom t (i + 1) (m + 1)).1,
      (fetchPageFrom t (i + 1) (m + 1)).2 + 1) = _
    rw [hr]

/-- C7.  Retry ceiling of `fetch_page`: when every transport response
carries a retryable status code, exactly `SPIDER_MAX_ATTEMPTS = 5` attempts
are issued and the last status failure is re-raised to the caller; a first
response whose status is outside the retryable set is returned after a
single attempt, with no application-layer retry. -/
theorem retry_ceiling :
    (∀ (t : Nat → TransportOutcome) (r4 : HttpResponse),
      (∀ i, ∃ r, t i = TransportOutcome.ok r ∧
        r.status ∈ RETRYABLE_STATUS_CODES) →
      t 4 = TransportOutcome.ok r4 →
      fetchPage t = (Except.error (FetchError.httpStatusError r4.status),
        SPIDER_MAX_ATTEMPTS)) ∧
    (∀ (t : Nat → TransportOutcome) (r : HttpResponse),
      t 0 = TransportOutcome.ok r → r.status ∉ RETRYABLE_STATUS_CODES →
      fetchPage t = (Except.ok r, 1)) := by
  constructor
  · intro t r4 hall h4
    show fetchPageFrom t 0 (4 + 1) = (_, (4 + 1 : Nat))
    exact fetchPageFrom_all_retry t hall 4 0 r4 h4
  · intro t r h0 hn
    show fetchPageFrom t 0 (4 + 1) = _
    rw [fetchPageFrom, h0, fetchAttempt_passthrough r hn]

def transportAll503 : Nat → TransportOutcome :=
  fun _ => TransportOutcome.ok ⟨503⟩

def transportOk404 : Nat → TransportOutcome :=
  fun _ => TransportOutcome.ok ⟨404⟩

/-- C7, witness: a transport that always answers 503 exhausts the five
attempts and surfaces the status failure; a 404 answer comes back after one
attempt. -/
theorem retry_ceiling_witness :
    fetchPage transportAll503 =
      (Except.error (FetchError.httpStatusError 503), 5) ∧
    fetchPage transportOk404 = (Except.ok ⟨404⟩, 1) :=
  ⟨retry_ceiling.1 transportAll503 ⟨503⟩
      (fun _ => ⟨⟨503⟩, rfl, by decide⟩) rfl,
   retry_ceiling.2 transportOk404 ⟨404⟩ rfl (by decide)⟩

/-- C8.  Per-task failure isolation: a raised fetch, a `None` extraction
and a raised persistence call are each converted inside `check_book_update`
to the `False` (no change) result — the function is total, so nothing
escapes to the `asyncio.gather` — and the batch always yields one boolean
per book, so no task's failure can abort a sibling. -/
theorem task_failure_isolation :
    (∀ (parse : String → Option Book) (dbf : DbFailPoint) (old : PyDict),
      checkBookUpdate parse FetchOutcome.fail dbf old = (false, [])) ∧
    (∀ (parse : String → Option Book) (page : String) (dbf : DbFailPoint)
        (old : PyDict), parse page = Option.none →
      checkBookUpdate parse (FetchOutcome.ok page) dbf old = (false, [])) ∧
    (∀ (parse : String → Option Book) (fetch : FetchOutcome) (old : PyDict),
      (checkBookUpdate parse fetch DbFailPoint.failUpdate old).1 = false) ∧
    (∀ (parse : String → Option Book) (page : String) (nb : Book)
        (old : PyDict), parse page = some nb →
      (logChangesEvents old nb).isEmpty = false →
      (checkBookUpdate parse (FetchOutcome.ok page)
        DbFailPoint.failInsert old).1 = false) ∧
    (∀ (parse : String → Option Book) (fetch : PyDict → FetchOutcome)
        (dbf : PyDict → DbFailPoint) (books : List PyDict),
      (runUpdateChecks parse fetch dbf books).length = books.length) := by
  refine ⟨fun _ _ _ => rfl, ?_, ?_, ?_, ?_⟩
  · intro parse page dbf old hp
    simp [checkBookUpdate, hp]
  · intro parse fetch old
    cases fetch with
    | fail => rfl
    | ok page =>
      cases hp : parse page with
      | none => simp [checkBookUpdate, hp]
      | some nb =>
        simp only [checkBookUpdate, hp]
        split_ifs <;> simp
  · intro parse page nb old hp hev
    simp only [checkBookUpdate, hp, hev]
    split_ifs <;> simp_all
  · intro parse fetch dbf books
    simp [runUpdateChecks]

lemma sem_invariant (n : Nat) :
    ∀ s : SemState, SemReachable n s → s.available + s.inFlight = n := by
  intro s h
  induction h with
  | refl => rfl
  | tail hst step ih =>
    cases step with
    | acquire a f => simp at ih ⊢; omega
    | release a f => simp at ih ⊢; omega

/-- C9.  Concurrency bound: in every state reachable from the initial
semaphore state, the number of in-flight fetches never exceeds the
admission limit, however many callers interleave acquire and release
steps. -/
theorem concurrency_bound (n : Nat) (s : SemState)
    (h : SemReachable n s) : s.inFlight ≤ n := by
  have := sem_invariant n s h
  omega

/-- C9, witness: after two concurrent callers enter the fetch section under
the default limit of 20, the state `⟨18, 2⟩` is reachable and its in-flight
count respects the bound. -/
theorem concurrency_bound_witness :
    SemReachable SPIDER_DEFAULT_CONCURRENCY ⟨18, 2⟩ ∧
    (SemState.mk 18 2).inFlight ≤ SPIDER_DEFAULT_CONCURRENCY :=
  have hreach : SemReachable SPIDER_DEFAULT_CONCURRENCY ⟨18, 2⟩ :=
    Relation.ReflTransGen.tail
      (Relation.ReflTransGen.tail Relation.ReflTransGen.refl
        (SemStep.acquire 19 0))
      (SemStep.acquire 18 1)
  ⟨hreach, concurrency_bound SPIDER_DEFAULT_CONCURRENCY ⟨18, 2⟩ hreach⟩
